import Mathlib

/-
Shallow embedding of the covid-data-vis dashboard (src/app.py).

The embedded core is the function load_and_process_data, which reads the
raw CSV into a dataframe, converts the date column, filters by a maximum
date and an excluded continent, partitions the remaining rows by date,
and sanitizes the deaths-per-million column of each per-date group with
fillna(-1).  Dates are modelled as natural numbers (order-isomorphic to
calendar dates), numeric CSV cells as Option Int (none = NaN / absent).
Column access on a dataframe missing that column raises a KeyError in
pandas; the embedding models column presence with three Boolean flags on
the raw table and returns Except on the same access order as the source.
The dashboard callbacks toggle_animation, update_time_slider and
update_map are embedded as pure functions of their inputs plus the
module-level DATES / PROCESSED_DATA values they read.
-/

namespace CovidVis

/-- One row of the raw dataset, with the columns the dashboard touches.
Numeric cells may be absent (pandas NaN), hence Option Int. -/
structure Record where
  iso_code : String
  location : String
  continent : String
  date : Nat
  total_cases : Option Int
  total_deaths : Option Int
  cases_per_million : Option Int
  total_deaths_per_million : Option Int
deriving Repr, DecidableEq

/-- The raw table handed to the builder: the parsed rows plus presence
flags for the three columns the builder accesses by name (pandas raises
KeyError when an accessed column is missing from the frame). -/
structure RawData where
  hasDateCol : Bool
  hasContinentCol : Bool
  hasDeathsPmCol : Bool
  rows : List Record
deriving Repr, DecidableEq

/-- Errors the builder can propagate; the source catches, prints and
re-raises the underlying pandas exception, of which the reachable kind
for a well-formed file is a missing-column KeyError. -/
inductive PdError where
  | keyError : String → PdError
deriving Repr, DecidableEq

/-- date_data["total_deaths_per_million"].fillna(-1) applied to one row:
an absent value becomes the sentinel -1, a present value is kept. -/
def fillnaCell (sentinel : Int) (v : Option Int) : Option Int :=
  some (v.getD sentinel)

/-- The per-row effect of the sanitization at Snapshot construction
(app.py line 50): only the total_deaths_per_million column is rewritten. -/
def sanitizeRecord (r : Record) : Record :=
  { r with total_deaths_per_million := fillnaCell (-1) r.total_deaths_per_million }

/-- pandas Series.unique walks the column keeping the first occurrence of
each value, tracking the set of values already seen. -/
def pdUniqueAux (seen : List Nat) : List Nat → List Nat
  | [] => []
  | x :: xs =>
    if x ∈ seen then pdUniqueAux seen xs
    else x :: pdUniqueAux (x :: seen) xs

/-- pandas Series.unique on the date column: first occurrences, in order. -/
def pdUnique (l : List Nat) : List Nat :=
  pdUniqueAux [] l

/-- Python sorted(...) on a list of dates: stable ascending sort. -/
def sortAsc (l : List Nat) : List Nat :=
  List.insertionSort (· ≤ ·) l

/-- The pair returned by load_and_process_data: the per-date mapping
(Python dict, keyed by the dates in insertion order) and the Snapshot
Index (ascending list of distinct dates). -/
structure Built where
  processed_data : List (Nat × List Record)
  dates : List Nat
deriving Repr, DecidableEq

/-- The frame after the two filter lines (app.py lines 41-42): first drop
rows past the maximum date, then drop rows of the excluded continent. -/
def filteredRows (raw : RawData) (maxDate : Nat) (excluded : String) : List Record :=
  (raw.rows.filter (fun r => decide (r.date ≤ maxDate))).filter
    (fun r => decide (r.continent ≠ excluded))

/-- load_and_process_data (app.py lines 33-56), with the two literals of
the source body (the maximum date "2024-06-17" and the excluded continent
"Antarctica") in parameter position, so that the filter contract can be
stated for all parameter values; load_and_process_data_main below fixes
them to the source literals.  Access order follows the source: the date
column is touched first (to_datetime and the date filter), then the
continent column, and the total_deaths_per_million column only inside
the per-date loop, hence only when at least one date survives filtering. -/
def load_and_process_data (raw : RawData) (maxDate : Nat) (excluded : String) :
    Except PdError Built :=
  if raw.hasDateCol = false then .error (.keyError "date")
  else
    if raw.hasContinentCol = false then .error (.keyError "continent")
    else
      let df2 := filteredRows raw maxDate excluded
      let dates := sortAsc (pdUnique (df2.map Record.date))
      if dates.isEmpty = false ∧ raw.hasDeathsPmCol = false then
        .error (.keyError "total_deaths_per_million")
      else
        .ok { processed_data :=
                dates.map (fun d =>
                  (d, (df2.filter (fun r => decide (r.date = d))).map sanitizeRecord)),
              dates := dates }

/-- The maximum-date literal "2024-06-17" of app.py line 41, encoded. -/
def DATA_MAX_DATE : Nat := 20240617

/-- The excluded-continent literal of app.py line 42. -/
def EXCLUDED_CONTINENT : String := "Antarctica"

/-- The builder exactly as invoked at startup, with the source literals. -/
def load_and_process_data_main (raw : RawData) : Except PdError Built :=
  load_and_process_data raw DATA_MAX_DATE EXCLUDED_CONTINENT

/-- State-passing view of one builder run: the result together with the
raw dataset after the run.  The source copies each per-date group
(date_data = df[...].copy(), app.py line 49) before assigning the
sanitized column, so the input frame is handed back unchanged. -/
def load_and_process_data_run (raw : RawData) (maxDate : Nat) (excluded : String) :
    Except PdError Built × RawData :=
  (load_and_process_data raw maxDate excluded, raw)

/-- The effective inputs of a build: the dataset path and the two filter
literals.  In the source these are a module constant and two string
literals inside the function body, not arguments of the memoized call. -/
structure BuildConfig where
  data_file_path : String
  max_date : Nat
  excluded : String
deriving Repr, DecidableEq

/-- flask_caching memoize key derivation: the key is built from the
decorated function's name and the arguments of the call. -/
def memoize_cache_key (fname : String) (args : List String) : String :=
  fname ++ "|" ++ String.intercalate "," args

/-- The cache key of the startup call load_and_process_data(): the
function takes no arguments, so the key is derived from the name and the
empty argument list only; no field of the configuration reaches it. -/
def load_cache_key (_cfg : BuildConfig) : String :=
  memoize_cache_key "load_and_process_data" []

/-- One memoized invocation against a filesystem store modelled as an
association list: on a hit the stored value is returned and the builder
is not run; on a miss the builder runs and its ok-result is stored. -/
def memoized_call (store : List (String × Built)) (key : String)
    (compute : Unit → Except PdError Built) :
    Except PdError Built × List (String × Built) :=
  match store.lookup key with
  | some v => (.ok v, store)
  | none =>
    match compute () with
    | .ok v => (.ok v, (key, v) :: store)
    | .error e => (.error e, store)

/-- toggle_animation (app.py lines 200-206): returns the new disabled
flag of the interval component and the button label. -/
def toggle_animation (n_clicks : Option Nat) (current_disabled : Bool) :
    Bool × String :=
  match n_clicks with
  | none => (true, "Play")
  | some _ =>
    (!current_disabled, if current_disabled then "Pause" else "Play")

/-- update_time_slider (app.py lines 210-219): on a tick (or slider
event), keep the value while the interval is disabled (Paused),
otherwise advance by one modulo len(DATES). -/
def update_time_slider (_n_intervals : Nat) (slider_value : Nat)
    (disabled : Bool) (dATES : List Nat) : Nat :=
  if disabled then slider_value
  else (slider_value + 1) % dATES.length

/-- The data series update_map feeds to the choropleth trace: the
locations, z and customdata columns of the selected Snapshot. -/
structure Figure where
  locations : List String
  z : List (Option Int)
  customdata : List (String × Option Int)
deriving Repr, DecidableEq

/-- update_map (app.py lines 223-227 and the trace construction): index
the Snapshot Index at the slider value, look the date up in the
processed mapping, and read the three columns off that Snapshot.  An
out-of-range index or a missing date would raise in the source; the
embedding returns none there. -/
def update_map (dATES : List Nat) (pROCESSED_DATA : List (Nat × List Record))
    (selected_index : Nat) : Option Figure :=
  match dATES.get? selected_index with
  | none => none
  | some selected_date =>
    match pROCESSED_DATA.lookup selected_date with
    | none => none
    | some date_data =>
      some { locations := date_data.map (fun r => r.iso_code),
             z := date_data.map (fun r => r.total_deaths_per_million),
             customdata := date_data.map (fun r => (r.location, r.total_deaths)) }

/-! Concrete sample data, mirroring the concrete scenario of the spec:
records for the regions USA and ATA (continent Antarctica) over three
dates, with one present-zero and one absent deaths-per-million cell. -/

/-- Sample row: USA on date 1 with a present deaths-per-million of 0. -/
def exRow1 : Record :=
  { iso_code := "USA", location := "United States", continent := "North America",
    date := 1, total_cases := some 100, total_deaths := some 10,
    cases_per_million := some 50, total_deaths_per_million := some 0 }

/-- Sample row: USA on date 2 with an absent deaths-per-million cell. -/
def exRow2 : Record :=
  { iso_code := "USA", location := "United States", continent := "North America",
    date := 2, total_cases := some 120, total_deaths := some 12,
    cases_per_million := some 60, total_deaths_per_million := none }

/-- Sample row: ATA on date 1, continent Antarctica (to be excluded). -/
def exRow3 : Record :=
  { iso_code := "ATA", location := "Antarctica", continent := "Antarctica",
    date := 1, total_cases := some 1, total_deaths := some 1,
    cases_per_million := some 1, total_deaths_per_million := some 5 }

/-- Sample row: USA on date 3, past the maximum date used in the tests. -/
def exRow4 : Record :=
  { iso_code := "USA", location := "United States", continent := "North America",
    date := 3, total_cases := some 130, total_deaths := some 13,
    cases_per_million := some 65, total_deaths_per_million := some 7 }

/-- Sample row: FRA on date 1, continent Europe. -/
def exRowEU : Record :=
  { iso_code := "FRA", location := "France", continent := "Europe",
    date := 1, total_cases := some 20, total_deaths := some 2,
    cases_per_million := some 11, total_deaths_per_million := some 4 }

/-- Sample raw table with all three accessed columns present. -/
def exRaw : RawData :=
  { hasDateCol := true, hasContinentCol := true, hasDeathsPmCol := true,
    rows := [exRow1, exRow2, exRow3, exRow4] }

/-- The build of exRaw with maximum date 2 and excluded continent
Antarctica: two dates survive, the zero cell is kept as 0 and the absent
cell becomes the sentinel -1. -/
def exBuilt : Built :=
  { processed_data :=
      [(1, [exRow1]),
       (2, [{ exRow2 with total_deaths_per_million := some (-1) }])],
    dates := [1, 2] }

/-- Raw table holding the same row twice: same region code, same date. -/
def exRawDup : RawData :=
  { hasDateCol := true, hasContinentCol := true, hasDeathsPmCol := true,
    rows := [exRow1, exRow1] }

/-- The build of exRawDup: one Snapshot holding USA twice. -/
def exBuiltDup : Built :=
  { processed_data := [(1, [exRow1, exRow1])], dates := [1] }

/-- Raw table whose single row lies past the maximum date used below, so
that filtering leaves nothing. -/
def exRawLate : RawData :=
  { hasDateCol := true, hasContinentCol := true, hasDeathsPmCol := true,
    rows := [exRow4] }

/-- Raw table with one Antarctica row and one Europe row on date 1, used
to exhibit the cache-key staleness. -/
def exRawC3 : RawData :=
  { hasDateCol := true, hasContinentCol := true, hasDeathsPmCol := true,
    rows := [exRow3, exRowEU] }

/-- Builder configuration matching the source literals, excluding the
continent Antarctica. -/
def exCfg1 : BuildConfig :=
  { data_file_path := "data/covid_data.csv", max_date := 2,
    excluded := "Antarctica" }

/-- The same configuration except for the excluded region. -/
def exCfg2 : BuildConfig :=
  { data_file_path := "data/covid_data.csv", max_date := 2,
    excluded := "Europe" }

deriving instance DecidableEq for Except

/-! Helper lemmas about the embedded pandas operations. -/

theorem mem_pdUniqueAux {a : Nat} {seen l : List Nat} :
    a ∈ pdUniqueAux seen l ↔ a ∈ l ∧ a ∉ seen := by
  induction l generalizing seen with
  | nil => simp [pdUniqueAux]
  | cons x xs ih =>
    by_cases hx : x ∈ seen
    · simp only [pdUniqueAux]
      rw [if_pos hx]
      simp only [List.mem_cons, ih]
      constructor
      · exact fun h => ⟨Or.inr h.1, h.2⟩
      · rintro ⟨h1 | h1, h2⟩
        · exact absurd (h1.symm ▸ hx) h2
        · exact ⟨h1, h2⟩
    · simp only [pdUniqueAux]
      rw [if_neg hx]
      simp only [List.mem_cons, ih]
      constructor
      · rintro (rfl | ⟨h1, h2⟩)
        · exact ⟨Or.inl rfl, hx⟩
        · exact ⟨Or.inr h1, fun hs => h2 (Or.inr hs)⟩
      · rintro ⟨rfl | h1, h2⟩
        · exact Or.inl rfl
        · rcases eq_or_ne a x with rfl | hax
          · exact Or.inl rfl
          · refine Or.inr ⟨h1, fun hs => ?_⟩
            rcases hs with h3 | h3
            · exact hax h3
            · exact h2 h3

theorem mem_pdUnique {a : Nat} {l : List Nat} : a ∈ pdUnique l ↔ a ∈ l := by
  simp [pdUnique, mem_pdUniqueAux]

theorem nodup_pdUniqueAux {seen l : List Nat} : (pdUniqueAux seen l).Nodup := by
  induction l generalizing seen with
  | nil => simp [pdUniqueAux]
  | cons x xs ih =>
    by_cases hx : x ∈ seen
    · simpa [pdUniqueAux, if_pos hx] using ih
    · simp only [pdUniqueAux, if_neg hx]
      exact List.nodup_cons.mpr
        ⟨fun hmem => (mem_pdUniqueAux.mp hmem).2 (List.mem_cons_self _ _), ih⟩

theorem nodup_pdUnique {l : List Nat} : (pdUnique l).Nodup :=
  nodup_pdUniqueAux

theorem pdUnique_ne_nil {x : Nat} {xs : List Nat} : pdUnique (x :: xs) ≠ [] := by
  simp [pdUnique, pdUniqueAux]

theorem mem_sortAsc {a : Nat} {l : List Nat} : a ∈ sortAsc l ↔ a ∈ l :=
  (List.perm_insertionSort (· ≤ ·) l).mem_iff

theorem nodup_sortAsc {l : List Nat} (h : l.Nodup) : (sortAsc l).Nodup :=
  ((List.perm_insertionSort (· ≤ ·) l).nodup_iff).mpr h

theorem sorted_sortAsc {l : List Nat} : (sortAsc l).Sorted (· ≤ ·) :=
  List.sorted_insertionSort (· ≤ ·) l

theorem sortAsc_eq_nil_iff {l : List Nat} : sortAsc l = [] ↔ l = [] := by
  constructor
  · intro h
    have hp := List.perm_insertionSort (· ≤ · : Nat → Nat → Prop) l
    rw [sortAsc] at h
    rw [h] at hp
    exact hp.symm.eq_nil
  · intro h
    subst h
    rfl

theorem pairwise_lt_of_sorted_nodup {l : List Nat}
    (hs : l.Sorted (· ≤ ·)) (hn : l.Nodup) : l.Pairwise (· < ·) :=
  (hs.and hn).imp fun h => lt_of_le_of_ne h.1 h.2

theorem mem_filteredRows {raw : RawData} {maxDate : Nat} {excluded : String}
    {r : Record} :
    r ∈ filteredRows raw maxDate excluded ↔
      r ∈ raw.rows ∧ r.date ≤ maxDate ∧ r.continent ≠ excluded := by
  simp only [filteredRows, List.mem_filter, decide_eq_true_eq]
  tauto

theorem load_ok_elim {raw : RawData} {maxDate : Nat} {excluded : String} {b : Built}
    (h : load_and_process_data raw maxDate excluded = .ok b) :
    b.dates = sortAsc (pdUnique ((filteredRows raw maxDate excluded).map Record.date)) ∧
    b.processed_data = b.dates.map (fun d =>
      (d, ((filteredRows raw maxDate excluded).filter
            (fun r => decide (r.date = d))).map sanitizeRecord)) := by
  simp only [load_and_process_data] at h
  split at h
  · exact absurd h (by simp)
  · split at h
    · exact absurd h (by simp)
    · split at h
      · exact absurd h (by simp)
      · cases h
        exact ⟨rfl, rfl⟩

theorem lookup_isSome_of_mem_keys {l : List (Nat × List Record)} {a : Nat}
    (h : a ∈ l.map Prod.fst) : (l.lookup a).isSome = true := by
  induction l with
  | nil => simp at h
  | cons p t ih =>
    obtain ⟨k, v⟩ := p
    rw [List.map_cons] at h
    by_cases hk : a = k
    · simp [List.lookup, hk]
    · have hb : (a == k) = false := by simp [hk]
      rcases List.mem_cons.mp h with h1 | h1
      · exact absurd h1 hk
      · simp only [List.lookup, hb]
        exact ih h1

theorem lookup_map_pair {g : Nat → List Record} {dates : List Nat} {d : Nat}
    (h : d ∈ dates) :
    (dates.map (fun x => (x, g x))).lookup d = some (g d) := by
  induction dates with
  | nil => simp at h
  | cons a t ih =>
    by_cases hda : d = a
    · subst hda
      simp [List.lookup]
    · have hb : (d == a) = false := by simp [hda]
      rcases List.mem_cons.mp h with h1 | h1
      · exact absurd h1 hda
      · simp only [List.map_cons, List.lookup, hb]
        exact ih h1

theorem dates_isEmpty_false {l : List Record} (h : l ≠ []) :
    (sortAsc (pdUnique (l.map Record.date))).isEmpty = false := by
  rcases l with _ | ⟨r, rs⟩
  · exact absurd rfl h
  · simp only [List.map_cons]
    cases hsa : sortAsc (pdUnique (r.date :: rs.map Record.date)) with
    | nil => exact absurd (sortAsc_eq_nil_iff.mp hsa) pdUnique_ne_nil
    | cons y ys => rfl

/-! Claim theorems. -/

/-- Claim C1: for every record surviving the filters, the Snapshot built
for that record's date stores its deaths-per-million cell normalized by
fillna(-1) exactly once at construction: an absent cell is stored as the
sentinel -1 and a present 0 is stored as 0 (distinct from the sentinel);
and the map redraw reads the stored column back unchanged, so the
normalization is applied nowhere else. -/
theorem claim1_sentinel_fillna (raw : RawData) (maxDate : Nat)
    (excluded : String) (b : Built)
    (h : load_and_process_data raw maxDate excluded = .ok b) :
    (∀ r ∈ filteredRows raw maxDate excluded,
      ∃ snap, b.processed_data.lookup r.date = some snap ∧
        sanitizeRecord r ∈ snap ∧
        (r.total_deaths_per_million = none →
          (sanitizeRecord r).total_deaths_per_million = some (-1)) ∧
        (r.total_deaths_per_million = some 0 →
          (sanitizeRecord r).total_deaths_per_million = some 0 ∧
            (sanitizeRecord r).total_deaths_per_million ≠ some (-1))) ∧
    (∀ i fig, update_map b.dates b.processed_data i = some fig →
      ∃ d snap, b.dates.get? i = some d ∧
        b.processed_data.lookup d = some snap ∧
        fig.z = snap.map (fun s => s.total_deaths_per_million)) := by
  obtain ⟨hd, hp⟩ := load_ok_elim h
  constructor
  · intro r hr
    have hdm : r.date ∈ b.dates := by
      rw [hd]
      exact mem_sortAsc.mpr (mem_pdUnique.mpr (List.mem_map_of_mem Record.date hr))
    refine ⟨((filteredRows raw maxDate excluded).filter
        (fun s => decide (s.date = r.date))).map sanitizeRecord, ?_, ?_, ?_, ?_⟩
    · rw [hp]
      exact lookup_map_pair hdm
    · exact List.mem_map_of_mem sanitizeRecord
        (List.mem_filter.mpr ⟨hr, by simp⟩)
    · intro hnone
      simp [sanitizeRecord, fillnaCell, hnone]
    · intro hzero
      refine ⟨by simp [sanitizeRecord, fillnaCell, hzero], ?_⟩
      simp [sanitizeRecord, fillnaCell, hzero]
  · intro i fig hfig
    unfold update_map at hfig
    cases hget : b.dates.get? i with
    | none =>
      rw [hget] at hfig
      simp at hfig
    | some d =>
      rw [hget] at hfig
      dsimp only at hfig
      cases hlook : b.processed_data.lookup d with
      | none =>
        rw [hlook] at hfig
        simp at hfig
      | some snap =>
        rw [hlook] at hfig
        dsimp only at hfig
        cases hfig
        exact ⟨d, snap, rfl, hlook, rfl⟩

/-- Witness for C1 on the sample table: the hypothesis evaluates and the
theorem applies at exRaw with maximum date 2 and excluded Antarctica. -/
theorem claim1_sentinel_fillna_witness :
    load_and_process_data exRaw 2 "Antarctica" = .ok exBuilt ∧
    ((∀ r ∈ filteredRows exRaw 2 "Antarctica",
      ∃ snap, exBuilt.processed_data.lookup r.date = some snap ∧
        sanitizeRecord r ∈ snap ∧
        (r.total_deaths_per_million = none →
          (sanitizeRecord r).total_deaths_per_million = some (-1)) ∧
        (r.total_deaths_per_million = some 0 →
          (sanitizeRecord r).total_deaths_per_million = some 0 ∧
            (sanitizeRecord r).total_deaths_per_million ≠ some (-1))) ∧
    (∀ i fig, update_map exBuilt.dates exBuilt.processed_data i = some fig →
      ∃ d snap, exBuilt.dates.get? i = some d ∧
        exBuilt.processed_data.lookup d = some snap ∧
        fig.z = snap.map (fun s => s.total_deaths_per_million))) :=
  ⟨rfl, claim1_sentinel_fillna exRaw 2 "Antarctica" exBuilt rfl⟩

/-- Claim C2: for all filter parameters, every date of the Snapshot Index
is at most the maximum date, and no Snapshot holds a record of the
excluded region; both filters run before the partition by date. -/
theorem claim2_filters_applied (raw : RawData) (maxDate : Nat)
    (excluded : String) (b : Built)
    (h : load_and_process_data raw maxDate excluded = .ok b) :
    (∀ d ∈ b.dates, d ≤ maxDate) ∧
    (∀ p ∈ b.processed_data, ∀ s ∈ p.2, s.continent ≠ excluded) := by
  obtain ⟨hd, hp⟩ := load_ok_elim h
  constructor
  · intro d hdm
    rw [hd] at hdm
    rcases List.mem_map.mp (mem_pdUnique.mp (mem_sortAsc.mp hdm)) with ⟨r, hr, rfl⟩
    exact (mem_filteredRows.mp hr).2.1
  · intro p hpm s hsm
    rw [hp] at hpm
    rcases List.mem_map.mp hpm with ⟨d, hdm, rfl⟩
    rcases List.mem_map.mp hsm with ⟨r, hrm, rfl⟩
    exact (mem_filteredRows.mp (List.mem_filter.mp hrm).1).2.2

/-- Witness for C2 on the sample table, whose raw rows include an
Antarctica row on date 1 and a row past the maximum date. -/
theorem claim2_filters_applied_witness :
    load_and_process_data exRaw 2 "Antarctica" = .ok exBuilt ∧
    ((∀ d ∈ exBuilt.dates, d ≤ 2) ∧
    (∀ p ∈ exBuilt.processed_data, ∀ s ∈ p.2, s.continent ≠ "Antarctica")) :=
  ⟨rfl, claim2_filters_applied exRaw 2 "Antarctica" exBuilt rfl⟩

/-- Claim C3 (bug exhibit): the memoized loader takes no arguments, so
its cache key is derived from the function name and the empty argument
list alone; two configurations differing only in the excluded region
share one key, and the second invocation is a stale cache hit returning
the first result, which differs from a fresh build under the second
configuration. -/
theorem claim3_cache_key_stale :
    exCfg1.data_file_path = exCfg2.data_file_path ∧
    exCfg1.max_date = exCfg2.max_date ∧
    exCfg1.excluded ≠ exCfg2.excluded ∧
    load_cache_key exCfg1 = load_cache_key exCfg2 ∧
    (memoized_call
        (memoized_call [] (load_cache_key exCfg1)
          (fun _ => load_and_process_data exRawC3 exCfg1.max_date exCfg1.excluded)).2
        (load_cache_key exCfg2)
        (fun _ => load_and_process_data exRawC3 exCfg2.max_date exCfg2.excluded)).1 =
      (memoized_call [] (load_cache_key exCfg1)
        (fun _ => load_and_process_data exRawC3 exCfg1.max_date exCfg1.excluded)).1 ∧
    (memoized_call
        (memoized_call [] (load_cache_key exCfg1)
          (fun _ => load_and_process_data exRawC3 exCfg1.max_date exCfg1.excluded)).2
        (load_cache_key exCfg2)
        (fun _ => load_and_process_data exRawC3 exCfg2.max_date exCfg2.excluded)).1 ≠
      load_and_process_data exRawC3 exCfg2.max_date exCfg2.excluded :=
  ⟨rfl, rfl, by decide, rfl, rfl, by decide⟩

/-- Claim C4 is false as stated: the builder never deduplicates region
codes, so a raw table holding the same region twice on one date yields a
Snapshot with a repeated code. -/
theorem claim4_counterexample :
    load_and_process_data exRawDup 2 "Antarctica" = .ok exBuiltDup ∧
    ∃ p ∈ exBuiltDup.processed_data, ¬ (p.2.map (fun s => s.iso_code)).Nodup :=
  ⟨rfl, by decide⟩

/-- Claim C4 amended: when the raw rows carry pairwise-distinct
(region code, date) pairs, the region codes within every produced
Snapshot are pairwise distinct: the builder preserves, but does not
establish, per-date uniqueness. -/
theorem claim4_amended (raw : RawData) (maxDate : Nat) (excluded : String)
    (b : Built)
    (h : load_and_process_data raw maxDate excluded = .ok b)
    (hu : raw.rows.Pairwise
      (fun r1 r2 => r1.date = r2.date → r1.iso_code ≠ r2.iso_code)) :
    ∀ p ∈ b.processed_data, (p.2.map (fun s => s.iso_code)).Nodup := by
  obtain ⟨hd, hp⟩ := load_ok_elim h
  intro p hpm
  rw [hp] at hpm
  rcases List.mem_map.mp hpm with ⟨d, hdm, rfl⟩
  have hsubf : List.Sublist (filteredRows raw maxDate excluded) raw.rows := by
    rw [filteredRows]
    exact (List.filter_sublist _).trans (List.filter_sublist _)
  have hsub : List.Sublist ((filteredRows raw maxDate excluded).filter
      (fun r => decide (r.date = d))) raw.rows :=
    (List.filter_sublist _).trans hsubf
  have hpw := hu.sublist hsub
  have hdates : ∀ r ∈ (filteredRows raw maxDate excluded).filter
      (fun r => decide (r.date = d)), r.date = d := by
    intro r hr
    exact of_decide_eq_true (List.mem_filter.mp hr).2
  have hpw2 : ((filteredRows raw maxDate excluded).filter
      (fun r => decide (r.date = d))).Pairwise
      (fun r1 r2 => r1.iso_code ≠ r2.iso_code) :=
    hpw.imp_of_mem fun {r1} {r2} h1 h2 himp =>
      himp ((hdates r1 h1).trans (hdates r2 h2).symm)
  rw [List.map_map]
  exact hpw2.map _ fun a b hab => hab

/-- Witness for the amended C4 on the sample table, whose rows have
pairwise-distinct (region code, date) pairs. -/
theorem claim4_amended_witness :
    load_and_process_data exRaw 2 "Antarctica" = .ok exBuilt ∧
    exRaw.rows.Pairwise
      (fun r1 r2 => r1.date = r2.date → r1.iso_code ≠ r2.iso_code) ∧
    ∀ p ∈ exBuilt.processed_data, (p.2.map (fun s => s.iso_code)).Nodup :=
  ⟨rfl, by decide, claim4_amended exRaw 2 "Antarctica" exBuilt rfl (by decide)⟩

/-- Claim C5 is false as stated: a nonempty raw table that becomes empty
after filtering does not make the builder fail; it returns an empty
index and mapping. -/
theorem claim5_counterexample :
    exRawLate.rows ≠ [] ∧
    filteredRows exRawLate 2 "Antarctica" = [] ∧
    load_and_process_data exRawLate 2 "Antarctica" =
      .ok { processed_data := [], dates := [] } :=
  ⟨by decide, rfl, rfl⟩

/-- Claim C5 amended: the builder fails (re-raising the underlying
missing-column error; the source has no dedicated DataError class)
precisely when the date column is absent, or the continent column is
absent, or the filtered table is nonempty and the deaths-per-million
column is absent; a table that is merely empty after filtering yields an
empty index and mapping without error. -/
theorem claim5_amended (raw : RawData) (maxDate : Nat) (excluded : String) :
    (∃ e, load_and_process_data raw maxDate excluded = .error e) ↔
      (raw.hasDateCol = false ∨ raw.hasContinentCol = false ∨
        (filteredRows raw maxDate excluded ≠ [] ∧
          raw.hasDeathsPmCol = false)) := by
  constructor
  · rintro ⟨e, he⟩
    simp only [load_and_process_data] at he
    split at he
    · exact Or.inl (by assumption)
    · split at he
      · exact Or.inr (Or.inl (by assumption))
      · split at he
        · rename_i hcond
          refine Or.inr (Or.inr ⟨fun hnil => ?_, hcond.2⟩)
          have hx : (sortAsc (pdUnique ((filteredRows raw maxDate excluded).map
              Record.date))).isEmpty = true := by
            rw [hnil]
            rfl
          have hfalse := hcond.1
          rw [hx] at hfalse
          exact Bool.noConfusion hfalse
        · simp at he
  · intro hcases
    by_cases h1 : raw.hasDateCol = false
    · exact ⟨.keyError "date", by simp [load_and_process_data, h1]⟩
    · by_cases h2 : raw.hasContinentCol = false
      · exact ⟨.keyError "continent", by simp [load_and_process_data, h1, h2]⟩
      · rcases hcases with hc | hc | hc
        · exact absurd hc h1
        · exact absurd hc h2
        · refine ⟨.keyError "total_deaths_per_million", ?_⟩
          have hne := dates_isEmpty_false hc.1
          simp [load_and_process_data, h1, h2, hne, hc.2]

/-- Claim C6: while Playing (interval enabled), a tick advances the
slider position by exactly one modulo the Snapshot Index length, and
from the last position it wraps to 0. -/
theorem claim6_tick_wraparound (n p : Nat) (dATES : List Nat)
    (_h : p < dATES.length) :
    update_time_slider n p false dATES = (p + 1) % dATES.length ∧
    (p + 1 = dATES.length → update_time_slider n p false dATES = 0) := by
  constructor
  · rfl
  · intro h1
    show (p + 1) % dATES.length = 0
    rw [h1]
    exact Nat.mod_self _

/-- Witness for C6: with a Snapshot Index of length 5 and position 4, a
tick while Playing yields position 0. -/
theorem claim6_tick_wraparound_witness :
    4 < ([10, 20, 30, 40, 50] : List Nat).length ∧
    (update_time_slider 0 4 false [10, 20, 30, 40, 50] =
        (4 + 1) % ([10, 20, 30, 40, 50] : List Nat).length ∧
      (4 + 1 = ([10, 20, 30, 40, 50] : List Nat).length →
        update_time_slider 0 4 false [10, 20, 30, 40, 50] = 0)) :=
  ⟨by decide, claim6_tick_wraparound 0 4 [10, 20, 30, 40, 50] (by decide)⟩

/-- Claim C7: while Paused (interval disabled), a tick of the slider
handler returns the position unchanged, for every tick count, position
and Snapshot Index. -/
theorem claim7_paused_tick_fixed (n p : Nat) (dATES : List Nat) :
    update_time_slider n p true dATES = p := rfl

/-- Claim C8: the Snapshot Index is strictly ascending (hence sorted and
deduplicated), and the produced mapping holds exactly one Snapshot per
index date, keyed in index order. -/
theorem claim8_index_ascending (raw : RawData) (maxDate : Nat)
    (excluded : String) (b : Built)
    (h : load_and_process_data raw maxDate excluded = .ok b) :
    b.dates.Pairwise (· < ·) ∧
    b.processed_data.map Prod.fst = b.dates := by
  obtain ⟨hd, hp⟩ := load_ok_elim h
  constructor
  · rw [hd]
    exact pairwise_lt_of_sorted_nodup sorted_sortAsc (nodup_sortAsc nodup_pdUnique)
  · rw [hp, List.map_map]
    exact List.map_id b.dates

/-- Witness for C8 on the sample table. -/
theorem claim8_index_ascending_witness :
    load_and_process_data exRaw 2 "Antarctica" = .ok exBuilt ∧
    (exBuilt.dates.Pairwise (· < ·) ∧
      exBuilt.processed_data.map Prod.fst = exBuilt.dates) :=
  ⟨rfl, claim8_index_ascending exRaw 2 "Antarctica" exBuilt rfl⟩

/-- Claim C9: the build is deterministic and mutation-free: the
state-passing run hands the raw dataset back unchanged (the source
sanitizes a copy of each per-date group), and a second run from that
returned dataset yields the same result as the first. -/
theorem claim9_deterministic_no_mutation (raw : RawData) (maxDate : Nat)
    (excluded : String) :
    (load_and_process_data_run raw maxDate excluded).2 = raw ∧
    (load_and_process_data_run
        (load_and_process_data_run raw maxDate excluded).2
        maxDate excluded).1 =
      (load_and_process_data_run raw maxDate excluded).1 :=
  ⟨rfl, rfl⟩

/-- Claim C10: from any in-range slider position the handler returns an
in-range position (unchanged when Paused, advanced by one modulo the
index length when Playing), so the map redraw's index and date lookups
always succeed. -/
theorem claim10_slider_in_range (n p : Nat) (disabled : Bool)
    (raw : RawData) (maxDate : Nat) (excluded : String) (b : Built)
    (h : load_and_process_data raw maxDate excluded = .ok b)
    (hp : p < b.dates.length) :
    update_time_slider n p disabled b.dates < b.dates.length ∧
    (disabled = true → update_time_slider n p disabled b.dates = p) ∧
    (disabled = false →
      update_time_slider n p disabled b.dates = (p + 1) % b.dates.length) ∧
    (update_map b.dates b.processed_data
        (update_time_slider n p disabled b.dates)).isSome = true := by
  obtain ⟨hd, hpd⟩ := load_ok_elim h
  have hN : 0 < b.dates.length := Nat.lt_of_le_of_lt (Nat.zero_le p) hp
  have hlt : update_time_slider n p disabled b.dates < b.dates.length := by
    cases disabled with
    | true => simpa [update_time_slider] using hp
    | false =>
      simp only [update_time_slider, Bool.false_eq_true, if_false]
      exact Nat.mod_lt _ hN
  refine ⟨hlt, fun h2 => by simp [update_time_slider, h2],
    fun h2 => by simp [update_time_slider, h2], ?_⟩
  obtain ⟨d, hget⟩ : ∃ d, b.dates.get?
      (update_time_slider n p disabled b.dates) = some d := by
    rw [List.get?_eq_get hlt]
    exact ⟨_, rfl⟩
  have hdm : d ∈ b.dates := List.get?_mem hget
  have hlook : b.processed_data.lookup d = some
      (((filteredRows raw maxDate excluded).filter
        (fun r => decide (r.date = d))).map sanitizeRecord) := by
    rw [hpd]
    exact lookup_map_pair hdm
  unfold update_map
  rw [hget]
  dsimp only
  rw [hlook]
  rfl

/-- Witness for C10 on the sample table, Playing from the last position. -/
theorem claim10_slider_in_range_witness :
    load_and_process_data exRaw 2 "Antarctica" = .ok exBuilt ∧
    1 < exBuilt.dates.length ∧
    (update_time_slider 0 1 false exBuilt.dates < exBuilt.dates.length ∧
      (false = true → update_time_slider 0 1 false exBuilt.dates = 1) ∧
      (false = false →
        update_time_slider 0 1 false exBuilt.dates =
          (1 + 1) % exBuilt.dates.length) ∧
      (update_map exBuilt.dates exBuilt.processed_data
          (update_time_slider 0 1 false exBuilt.dates)).isSome = true) :=
  ⟨rfl, by decide,
    claim10_slider_in_range 0 1 false exRaw 2 "Antarctica" exBuilt rfl (by decide)⟩

end CovidVis
